import Mathlib

/-!
Shallow embedding of `src/scraper_py.py` (kmamine/research-trend-follower),
a linear ETL pipeline: fetch listing pages, extract paper cards, stamp a
batch timestamp, enrich each record via a metadata client, and append the
result to a SQLite table.

Modelling conventions:
* HTML parsing is abstracted at the card level: a page, after the
  `soup.find_all("div", class_="paper-card infinite-item")` call, is a list
  of `Card` values.  A card records the pieces the source inspects: the
  optional image column (with the hrefs of its `<a href=...>` anchors in
  document order), the optional trimmed text of the stars-accumulated
  element, and the optional trimmed text of the badge element.
* `requests.get` + `raise_for_status` is a function
  `fetch : Nat → Except String (List Card)`: a non-success HTTP status is
  the `.error` case and aborts the run, success yields the parsed cards.
* `time.sleep(1)` and each page request are recorded in an event trace.
* The metadata client `client.paper_get` is a function
  `String → Except String PaperObj`; a raised exception is `.error`.
* The pandas DataFrame is a `List Row` / `List EnrichedRow`; `None` cells
  are `Option.none`.  The SQLite table is `Option (List EnrichedRow)`
  (`none` = table absent).
-/

namespace Scraper

/-- The separator Python splits on: `link["href"].split("/paper/")`. -/
def sepPaper : List Char := "/paper/".toList

/-- Python's `s.split(sep)` for the fixed non-empty separator `sepPaper`,
on character lists: scan left to right, cut at each occurrence.  `fuel`
makes the recursion structural; the wrapper passes `s.length`, which is
always enough, so the fuel-exhausted branch is never reached from it. -/
def pySplitPaperFuel : Nat → List Char → List Char → List (List Char)
  | _, [], acc => [acc]
  | 0, s, acc => [acc ++ s]
  | fuel + 1, c :: rest, acc =>
    if sepPaper.isPrefixOf (c :: rest) then
      acc :: pySplitPaperFuel fuel ((c :: rest).drop sepPaper.length) []
    else
      pySplitPaperFuel fuel rest (acc ++ [c])

/-- `s.split("/paper/")` on a character list. -/
def pySplitPaper (s : List Char) : List (List Char) :=
  pySplitPaperFuel s.length s []

/-- `link["href"].split("/paper/")[-1]` from the source. -/
def splitPaperLast (href : String) : String :=
  ((pySplitPaper href.toList).getLastD []).asString

/-- Does `sepPaper` occur anywhere in `s`? -/
def containsSep : List Char → Bool
  | [] => false
  | c :: rest => sepPaper.isPrefixOf (c :: rest) || containsSep rest

/-- One paper card as the source inspects it. `imgColLinks = none` models a
card with no `div.col-lg-3.item-image-col`; `some hrefs` gives the hrefs of
the anchors (`find("a", href=True)` takes the head). `starsAcc` and `badge`
are the trimmed texts of the stars-accumulated and badge elements. -/
structure Card where
  imgColLinks : Option (List String)
  starsAcc : Option String
  badge : Option String
deriving Repr, DecidableEq

/-- One extracted record before the timestamp column is added. -/
structure PaperSummary where
  id : String
  spr : Option String
  stars : Option String
deriving Repr, DecidableEq

/-- The `paper_id` variable of the card loop: image column present, first
anchor with an href, href starts with `/paper/`, then the part after the
last `/paper/`. -/
def extractCardId (c : Card) : Option String :=
  match c.imgColLinks with
  | none => none
  | some links =>
    match links.head? with
    | none => none
    | some href =>
      if sepPaper.isPrefixOf href.toList then some (splitPaperLast href)
      else none

/-- One iteration of the card loop: a record is appended only when
`paper_id` is truthy in Python, i.e. present and non-empty. -/
def extractRecord (c : Card) : Option PaperSummary :=
  match extractCardId c with
  | none => none
  | some pid =>
    if pid ≠ "" then some ⟨pid, c.starsAcc, c.badge⟩ else none

/-- The card loop over one page, in document order. -/
def extractPage (cards : List Card) : List PaperSummary :=
  cards.filterMap extractRecord

/-- A well-formed card carrying the id `pid`: the image column is present
and its first hyperlink target is exactly `/paper/<pid>`, with `pid`
non-empty and not itself containing the `/paper/` separator. -/
def wellFormedCard (c : Card) (pid : String) : Prop :=
  pid ≠ "" ∧ containsSep pid.toList = false ∧
    c.imgColLinks.bind List.head? = some ("/paper/" ++ pid)

/-- Observable events of a run: one per page request and one per
`time.sleep` call, in execution order. -/
inductive Event where
  | fetchReq (page : Nat)
  | sleep (secs : Nat)
deriving Repr, DecidableEq

/-- The page loop of `get_current_trending`: `cur` is the page about to be
requested, `n` the number of pages still to do.  Each iteration performs
`requests.get` (recorded as `fetchReq`), raises on a non-success status
(the `.error` case, in which the run stops and no sleep happens), extracts
the page's cards and then sleeps 1 second.  Returns the accumulated
records together with the event trace. -/
def scrapePages (fetch : Nat → Except String (List Card)) :
    Nat → Nat → Except String (List PaperSummary) × List Event
  | _, 0 => (Except.ok [], [])
  | cur, n + 1 =>
    match fetch cur with
    | Except.error e => (Except.error e, [Event.fetchReq cur])
    | Except.ok cards =>
      let rest := scrapePages fetch (cur + 1) n
      (match rest.1 with
       | Except.error e => Except.error e
       | Except.ok rs => Except.ok (extractPage cards ++ rs),
       Event.fetchReq cur :: Event.sleep 1 :: rest.2)

/-- One row of the DataFrame returned by `get_current_trending`, after the
`df['timestamp'] = ...` column assignment. -/
structure Row where
  id : String
  spr : Option String
  stars : Option String
  timestamp : Int
deriving Repr, DecidableEq

/-- `get_current_trending(pages)`: scrape pages 1..pages, then stamp every
record with the single timestamp `now` captured once after the loop
(`int(datetime.datetime.utcnow().timestamp())`). -/
def get_current_trending (fetch : Nat → Except String (List Card))
    (pages : Nat) (now : Int) : Except String (List Row) :=
  match (scrapePages fetch 1 pages).1 with
  | Except.error e => Except.error e
  | Except.ok summaries =>
    Except.ok (summaries.map fun s =>
      { id := s.id, spr := s.spr, stars := s.stars, timestamp := now })

/-- The object returned by `client.paper_get(paper_id)`; every field the
source reads may be `None`. -/
structure PaperObj where
  title : Option String
  arxiv_id : Option String
  url_pdf : Option String
  abstract : Option String
  published : Option String
deriving Repr, DecidableEq

/-- The dict built by `get_paper_metadata`. -/
structure PaperMetadata where
  title : Option String
  arxiv_id : Option String
  url_pdf : Option String
  abstract : Option String
  published : Option String
deriving Repr, DecidableEq

/-- `get_paper_metadata(paper_id)`: one client lookup, then the five-field
dict; an exception from the client propagates. -/
def get_paper_metadata (paper_get : String → Except String PaperObj)
    (paper_id : String) : Except String PaperMetadata :=
  match paper_get paper_id with
  | Except.error e => Except.error e
  | Except.ok p =>
    Except.ok { title := p.title, arxiv_id := p.arxiv_id,
                url_pdf := p.url_pdf, abstract := p.abstract,
                published := p.published }

/-- A row of the final DataFrame: summary fields, timestamp and the five
metadata columns. -/
structure EnrichedRow where
  id : String
  spr : Option String
  stars : Option String
  timestamp : Int
  title : Option String
  arxiv_id : Option String
  url_pdf : Option String
  abstract : Option String
  published : Option String
deriving Repr, DecidableEq

/-- The metadata-column initialisation `df[col] = None`: all five metadata
cells are the `None` sentinel. -/
def initEnriched (r : Row) : EnrichedRow :=
  { id := r.id, spr := r.spr, stars := r.stars, timestamp := r.timestamp,
    title := none, arxiv_id := none, url_pdf := none, abstract := none,
    published := none }

/-- The inner `for col in metadata_cols: df.at[idx, col] = ...` writes on a
successful lookup: overwrite all five metadata cells from the dict. -/
def mergeMeta (r : Row) (md : PaperMetadata) : EnrichedRow :=
  { id := r.id, spr := r.spr, stars := r.stars, timestamp := r.timestamp,
    title := md.title, arxiv_id := md.arxiv_id, url_pdf := md.url_pdf,
    abstract := md.abstract, published := md.published }

/-- One iteration of the enrichment loop for row `r`: try the lookup; on
success merge all five fields, on an exception leave the sentinels (the
error is printed and the loop continues). -/
def enrichOne (paper_get : String → Except String PaperObj)
    (r : Row) : EnrichedRow :=
  match get_paper_metadata paper_get r.id with
  | Except.ok md => mergeMeta r md
  | Except.error _ => initEnriched r

/-- The `for idx, row in df.iterrows()` loop.  Returns the enriched rows in
order and the list of ids for which a lookup was issued. -/
def enrichLoop (paper_get : String → Except String PaperObj) :
    List Row → List EnrichedRow × List String
  | [] => ([], [])
  | r :: rs =>
    let rest := enrichLoop paper_get rs
    (enrichOne paper_get r :: rest.1, r.id :: rest.2)

/-- The enrichment step of `__main__`: initialise the metadata columns,
then run the loop only under the `if not df.empty` guard. -/
def runEnrichment (paper_get : String → Except String PaperObj)
    (rows : List Row) : List EnrichedRow × List String :=
  if rows.isEmpty then (rows.map initEnriched, [])
  else enrichLoop paper_get rows

/-- `save_to_sqlite(df)`: `to_sql(..., if_exists='append')` appends to the
table when it exists and creates it from the DataFrame otherwise.  The
store is `none` when the table is absent; the result is the table's rows
after the write. -/
def save_to_sqlite (table : Option (List EnrichedRow))
    (df : List EnrichedRow) : List EnrichedRow :=
  match table with
  | none => df
  | some rows => rows ++ df

/-- The `__main__` block: scrape, enrich, persist, report `len(df)`.
Returns the table contents after the write, the ids looked up during
enrichment, and the count printed by the success line; a fetch failure
propagates as `.error` before any write. -/
def mainRun (fetch : Nat → Except String (List Card))
    (paper_get : String → Except String PaperObj) (pages : Nat) (now : Int)
    (table : Option (List EnrichedRow)) :
    Except String (List EnrichedRow × List String × Nat) :=
  match get_current_trending fetch pages now with
  | Except.error e => Except.error e
  | Except.ok df =>
    let er := runEnrichment paper_get df
    Except.ok (save_to_sqlite table er.1, er.2, df.length)

/-- The storage sink after a run: unchanged when the run aborted, the
written contents otherwise. -/
def finalTable (fetch : Nat → Except String (List Card))
    (paper_get : String → Except String PaperObj) (pages : Nat) (now : Int)
    (table : Option (List EnrichedRow)) : Option (List EnrichedRow) :=
  match mainRun fetch paper_get pages now table with
  | Except.error _ => table
  | Except.ok out => some out.1


/-! ### Concrete fixtures used by the witness theorems -/

/-- A card whose image column links to `/paper/abc123`. -/
def cardA : Card :=
  { imgColLinks := some ["/paper/abc123"], starsAcc := some "12.3",
    badge := some "450" }

/-- A card whose image column links to `/paper/xyz`. -/
def cardB : Card :=
  { imgColLinks := some ["/paper/xyz", "/paper/other"], starsAcc := none,
    badge := some "7" }

/-- A card with no image column at all. -/
def cardBad : Card :=
  { imgColLinks := none, starsAcc := some "1", badge := none }

/-- A fetcher whose every page holds exactly the card `cardA`. -/
def fetchOkA : Nat → Except String (List Card) := fun _ => Except.ok [cardA]

/-- A fetcher whose every page parses to zero cards. -/
def fetchEmpty : Nat → Except String (List Card) := fun _ => Except.ok []

/-- A fetcher for which page 2 returns a non-success HTTP status. -/
def fetchFail2 : Nat → Except String (List Card) := fun p =>
  if p = 2 then Except.error "HTTP 500" else Except.ok [cardA]

/-- A concrete provider response. -/
def objFoo : PaperObj :=
  { title := some "Foo", arxiv_id := some "2301.00001",
    url_pdf := some "http://x/y.pdf", abstract := some "An abstract",
    published := some "2023-01-01" }

/-- A provider that fails for id `X` and succeeds for every other id. -/
def pgSplit : String → Except String PaperObj := fun s =>
  if s = "X" then Except.error "boom" else Except.ok objFoo

/-- A provider that always fails. -/
def pgNever : String → Except String PaperObj := fun _ =>
  Except.error "offline"

/-- A batch row with id `X`. -/
def rowX : Row := { id := "X", spr := none, stars := none, timestamp := 7 }

/-- A batch row with id `Y`. -/
def rowY : Row :=
  { id := "Y", spr := some "1", stars := some "2", timestamp := 7 }

/-- A pre-existing table row from an earlier run. -/
def erow0 : EnrichedRow :=
  { id := "old", spr := none, stars := none, timestamp := 3, title := none,
    arxiv_id := none, url_pdf := none, abstract := none, published := none }

/-! ### Lemmas about the `/paper/` split -/

theorem sepPaper_eq : sepPaper = ['/', 'p', 'a', 'p', 'e', 'r', '/'] := rfl

theorem pySplitPaperFuel_no_sep :
    ∀ (fuel : Nat) (s acc : List Char), containsSep s = false →
      pySplitPaperFuel fuel s acc = [acc ++ s] := by
  intro fuel
  induction fuel with
  | zero =>
    intro s acc _
    cases s with
    | nil => simp [pySplitPaperFuel]
    | cons c rest => simp [pySplitPaperFuel]
  | succ n ih =>
    intro s acc h
    cases s with
    | nil => simp [pySplitPaperFuel]
    | cons c rest =>
      rw [containsSep] at h
      simp only [Bool.or_eq_false_iff] at h
      rw [pySplitPaperFuel, if_neg (by simp [h.1]), ih rest (acc ++ [c]) h.2]
      simp

theorem pySplitPaperFuel_cut (fuel : Nat) (s acc : List Char) :
    pySplitPaperFuel (fuel + 1) (sepPaper ++ s) acc =
      acc :: pySplitPaperFuel fuel s [] := by
  rw [sepPaper_eq]
  rw [show (['/', 'p', 'a', 'p', 'e', 'r', '/'] ++ s) =
      '/' :: ('p' :: 'a' :: 'p' :: 'e' :: 'r' :: '/' :: s) from rfl]
  rw [pySplitPaperFuel]
  rw [if_pos]
  · rw [show ('/' :: 'p' :: 'a' :: 'p' :: 'e' :: 'r' :: '/' :: s) =
        sepPaper ++ s from by rw [sepPaper_eq]; rfl]
    rw [List.drop_left]
  · rw [show ('/' :: 'p' :: 'a' :: 'p' :: 'e' :: 'r' :: '/' :: s) =
        sepPaper ++ s from by rw [sepPaper_eq]; rfl]
    rw [List.isPrefixOf_iff_prefix]
    exact List.prefix_append _ _

/-- `"/paper/<id>".split("/paper/")[-1] = "<id>"` when `<id>` does not
itself contain `/paper/`. -/
theorem splitPaperLast_paper (pid : String) (h : containsSep pid.toList = false) :
    splitPaperLast ("/paper/" ++ pid) = pid := by
  unfold splitPaperLast pySplitPaper
  have htl : ("/paper/" ++ pid).toList = sepPaper ++ pid.toList := String.data_append _ _
  rw [htl]
  have hlen : (sepPaper ++ pid.toList).length = (6 + pid.toList.length) + 1 := by
    simp [sepPaper_eq]; omega
  rw [hlen, pySplitPaperFuel_cut, pySplitPaperFuel_no_sep _ _ _ h]
  show (([] :: [[] ++ pid.toList]).getLastD []).asString = pid
  simp only [List.nil_append, List.getLastD_cons]
  exact String.asString_toList pid

/-! ### Extractor lemmas -/

theorem extractRecord_wellFormed (c : Card) (pid : String)
    (h : wellFormedCard c pid) :
    extractRecord c = some ⟨pid, c.starsAcc, c.badge⟩ := by
  obtain ⟨hne, hsep, hlink⟩ := h
  obtain ⟨links, hcol, hhead⟩ := Option.bind_eq_some.mp hlink
  have htl : ("/paper/" ++ pid).toList = sepPaper ++ pid.toList := String.data_append _ _
  have hpre : sepPaper.isPrefixOf ("/paper/" ++ pid).toList = true := by
    rw [List.isPrefixOf_iff_prefix, htl]
    exact List.prefix_append _ _
  have hid : extractCardId c = some pid := by
    simp [extractCardId, hcol, hhead, hpre, splitPaperLast_paper pid hsep]
    rw [sepPaper_eq]
    exact List.prefix_append ['/', 'p', 'a', 'p', 'e', 'r', '/'] pid.data
  rw [extractRecord, hid]
  simp [hne]

theorem extractRecord_id_ne (c : Card) (r : PaperSummary)
    (h : extractRecord c = some r) : r.id ≠ "" := by
  rw [extractRecord] at h
  split at h
  · cases h
  · split at h
    · cases h
      assumption
    · cases h

/-! ### Enrichment lemmas -/

theorem enrichLoop_fst (paper_get : String → Except String PaperObj) :
    ∀ rows : List Row, (enrichLoop paper_get rows).1 = rows.map (enrichOne paper_get)
  | [] => rfl
  | _ :: rs => by
    rw [List.map_cons, ← enrichLoop_fst paper_get rs]
    rfl

theorem enrichLoop_snd (paper_get : String → Except String PaperObj) :
    ∀ rows : List Row, (enrichLoop paper_get rows).2 = rows.map Row.id
  | [] => rfl
  | _ :: rs => by
    rw [List.map_cons, ← enrichLoop_snd paper_get rs]
    rfl

theorem runEnrichment_fst (paper_get : String → Except String PaperObj)
    (rows : List Row) :
    (runEnrichment paper_get rows).1 = rows.map (enrichOne paper_get) := by
  rw [runEnrichment]
  by_cases h : rows.isEmpty
  · rw [if_pos h]
    rw [List.isEmpty_iff] at h
    subst h
    rfl
  · rw [if_neg h, enrichLoop_fst]

theorem scrapePages_error (fetch : Nat → Except String (List Card)) :
    ∀ (n cur : Nat), (∃ p, cur ≤ p ∧ p < cur + n ∧ ∃ e, fetch p = Except.error e) →
      ∃ e, (scrapePages fetch cur n).1 = Except.error e := by
  intro n
  induction n with
  | zero =>
    intro cur ⟨p, h1, h2, _⟩
    omega
  | succ m ih =>
    intro cur ⟨p, h1, h2, e, he⟩
    cases hf : fetch cur with
    | error e2 => exact ⟨e2, by rw [scrapePages, hf]⟩
    | ok cards =>
      have hpne : p ≠ cur := by
        intro hh
        rw [hh, hf] at he
        cases he
      obtain ⟨e2, h2p⟩ := ih (cur + 1) ⟨p, by omega, by omega, e, he⟩
      refine ⟨e2, ?_⟩
      rw [scrapePages, hf]
      simp only [h2p]

theorem scrapePages_trace_err (fetch : Nat → Except String (List Card))
    (cur n : Nat) (e : String) (hf : fetch cur = Except.error e) :
    (scrapePages fetch cur (n + 1)).2 = [Event.fetchReq cur] := by
  rw [scrapePages, hf]

theorem scrapePages_trace_ok (fetch : Nat → Except String (List Card))
    (cur n : Nat) (cards : List Card) (hf : fetch cur = Except.ok cards) :
    (scrapePages fetch cur (n + 1)).2 =
      Event.fetchReq cur :: Event.sleep 1 :: (scrapePages fetch (cur + 1) n).2 := by
  rw [scrapePages, hf]

theorem scrapePages_trace_sleep (fetch : Nat → Except String (List Card)) :
    ∀ (n cur i : Nat) (p : Nat),
      ((scrapePages fetch cur n).2)[i]? = some (Event.fetchReq p) →
      ((scrapePages fetch cur n).2)[i + 1]? = some (Event.sleep 1) ∨
      ((scrapePages fetch cur n).2)[i + 1]? = none := by
  intro n
  induction n with
  | zero =>
    intro cur i p hi
    rw [scrapePages] at hi
    cases hi
  | succ m ih =>
    intro cur i p hi
    cases hf : fetch cur with
    | error e =>
      rw [scrapePages_trace_err fetch cur m e hf] at hi ⊢
      cases i with
      | zero => right; simp
      | succ j => simp at hi
    | ok cards =>
      rw [scrapePages_trace_ok fetch cur m cards hf] at hi ⊢
      cases i with
      | zero => left; simp
      | succ j =>
        cases j with
        | zero => simp at hi
        | succ k =>
          simp only [List.getElem?_cons_succ] at hi ⊢
          exact ih (cur + 1) k p hi

theorem scrapePages_fst_err (fetch : Nat → Except String (List Card))
    (cur n : Nat) (e : String) (hf : fetch cur = Except.error e) :
    (scrapePages fetch cur (n + 1)).1 = Except.error e := by
  rw [scrapePages, hf]

theorem scrapePages_fst_ok (fetch : Nat → Except String (List Card))
    (cur n : Nat) (cards : List Card) (hf : fetch cur = Except.ok cards) :
    (scrapePages fetch cur (n + 1)).1 =
      match (scrapePages fetch (cur + 1) n).1 with
      | Except.error e => Except.error e
      | Except.ok rs => Except.ok (extractPage cards ++ rs) := by
  rw [scrapePages, hf]

theorem scrapePages_ok_id_ne (fetch : Nat → Except String (List Card)) :
    ∀ (n cur : Nat) (ss : List PaperSummary),
      (scrapePages fetch cur n).1 = Except.ok ss → ∀ s ∈ ss, s.id ≠ "" := by
  intro n
  induction n with
  | zero =>
    intro cur ss h s hs
    rw [scrapePages] at h
    cases h
    cases hs
  | succ m ih =>
    intro cur ss h s hs
    cases hf : fetch cur with
    | error e =>
      rw [scrapePages_fst_err fetch cur m e hf] at h
      cases h
    | ok cards =>
      rw [scrapePages_fst_ok fetch cur m cards hf] at h
      cases hr : (scrapePages fetch (cur + 1) m).1 with
      | error e => rw [hr] at h; cases h
      | ok rs =>
        rw [hr] at h
        cases h
        cases List.mem_append.mp hs with
        | inl hmem =>
          obtain ⟨c, _, hc⟩ := List.mem_filterMap.mp hmem
          exact extractRecord_id_ne c s hc
        | inr hmem => exact ih (cur + 1) rs hr s hmem

/-! ## Claim theorems -/

/-- C1: for every page of N well-formed paper cards, each of whose image
column's first hyperlink target is `/paper/<id>`, the Extractor yields
exactly N records in document order whose ids are the `<id>` parts. -/
theorem C1_extractor_wellformed_cards (cards : List Card) (ids : List String)
    (h : List.Forall₂ wellFormedCard cards ids) :
    (extractPage cards).length = cards.length ∧
    (extractPage cards).map PaperSummary.id = ids := by
  induction h with
  | nil => exact ⟨rfl, rfl⟩
  | @cons c pid cs pids hcp _ ih =>
    have h1 : extractPage (c :: cs) =
        ⟨pid, c.starsAcc, c.badge⟩ :: extractPage cs := by
      simp [extractPage, List.filterMap_cons, extractRecord_wellFormed c pid hcp]
    rw [h1]
    refine ⟨by simp only [List.length_cons, ih.1], ?_⟩
    rw [List.map_cons, ih.2]

/-- C4: every row of a successful `get_current_trending` run carries the
single timestamp captured once after all pages are fetched; in particular
all rows of the batch share an identical timestamp. -/
theorem C4_single_timestamp (fetch : Nat → Except String (List Card))
    (pages : Nat) (now : Int) (rows : List Row)
    (h : get_current_trending fetch pages now = Except.ok rows) :
    (∀ r ∈ rows, r.timestamp = now) ∧
    ∀ r1 ∈ rows, ∀ r2 ∈ rows, r1.timestamp = r2.timestamp := by
  have hmap : ∀ r ∈ rows, r.timestamp = now := by
    rw [get_current_trending] at h
    cases hs : (scrapePages fetch 1 pages).1 with
    | error e => rw [hs] at h; cases h
    | ok summaries =>
      rw [hs] at h
      cases h
      intro r hr
      obtain ⟨s, _, rfl⟩ := List.mem_map.mp hr
      rfl
  exact ⟨hmap, fun r1 h1 r2 h2 => (hmap r1 h1).trans (hmap r2 h2).symm⟩

/-- C5: a card whose image column yields no valid `/paper/<id>` link (or
whose id would be empty) produces no record, the Extractor output count is
at most the card count, and every emitted record has a non-empty id. -/
theorem C5_invalid_cards_dropped :
    (∀ cards : List Card, (extractPage cards).length ≤ cards.length) ∧
    (∀ cards : List Card, ∀ r ∈ extractPage cards, r.id ≠ "") ∧
    (∀ c : Card, (extractCardId c = none ∨ extractCardId c = some "") →
      extractRecord c = none) ∧
    (∀ (fetch : Nat → Except String (List Card))
      (paper_get : String → Except String PaperObj) (pages : Nat) (now : Int)
      (rows : List Row), get_current_trending fetch pages now = Except.ok rows →
      ∀ er ∈ (runEnrichment paper_get rows).1, er.id ≠ "") := by
  refine ⟨fun cards => List.length_filterMap_le _ _, ?_, ?_, ?_⟩
  · intro cards r hr
    obtain ⟨c, _, hc⟩ := List.mem_filterMap.mp hr
    exact extractRecord_id_ne c r hc
  · intro c hbad
    cases hbad with
    | inl hb => rw [extractRecord, hb]
    | inr hb => rw [extractRecord, hb]; simp
  · intro fetch paper_get pages now rows h er her
    rw [get_current_trending] at h
    cases hs : (scrapePages fetch 1 pages).1 with
    | error e => rw [hs] at h; cases h
    | ok summaries =>
      rw [hs] at h
      cases h
      rw [runEnrichment_fst] at her
      obtain ⟨r, hr, rfl⟩ := List.mem_map.mp her
      obtain ⟨sm, hsm, rfl⟩ := List.mem_map.mp hr
      have hne := scrapePages_ok_id_ne fetch pages 1 summaries hs sm hsm
      have hid : (enrichOne paper_get
          { id := sm.id, spr := sm.spr, stars := sm.stars, timestamp := now }).id
          = sm.id := by
        rw [enrichOne]
        cases get_paper_metadata paper_get sm.id with
        | error e => rfl
        | ok md => rfl
      rw [hid]
      exact hne

/-- C6: after enrichment a record is either exactly the all-sentinel
initialisation or exactly the merge of one successful provider response;
no execution yields a partial mix of metadata fields. -/
theorem C6_no_partial_merge (paper_get : String → Except String PaperObj)
    (r : Row) :
    (enrichOne paper_get r = initEnriched r ∧
      (initEnriched r).title = none ∧ (initEnriched r).arxiv_id = none ∧
      (initEnriched r).url_pdf = none ∧ (initEnriched r).abstract = none ∧
      (initEnriched r).published = none) ∨
    (∃ md, get_paper_metadata paper_get r.id = Except.ok md ∧
      enrichOne paper_get r = mergeMeta r md ∧
      (mergeMeta r md).title = md.title ∧
      (mergeMeta r md).arxiv_id = md.arxiv_id ∧
      (mergeMeta r md).url_pdf = md.url_pdf ∧
      (mergeMeta r md).abstract = md.abstract ∧
      (mergeMeta r md).published = md.published) := by
  cases h : get_paper_metadata paper_get r.id with
  | error e =>
    left
    refine ⟨?_, rfl, rfl, rfl, rfl, rfl⟩
    rw [enrichOne, h]
  | ok md =>
    right
    refine ⟨md, rfl, ?_, rfl, rfl, rfl, rfl, rfl⟩
    rw [enrichOne, h]

/-- C7: the Persister appends: persisting a second batch into the table
left by a first run adds exactly that batch's row count, and an absent
table is created with the batch's rows. -/
theorem C7_append_cumulative (t0 : Option (List EnrichedRow))
    (b1 b2 : List EnrichedRow) :
    (save_to_sqlite (some (save_to_sqlite t0 b1)) b2).length =
      (save_to_sqlite t0 b1).length + b2.length ∧
    (∀ b : List EnrichedRow, save_to_sqlite none b = b) := by
  refine ⟨?_, fun b => rfl⟩
  rw [save_to_sqlite]
  exact List.length_append _ _

/-- C9: the enrichment step maps each row through `enrichOne`, which
leaves the id, spr, stars and timestamp fields unchanged whether the
per-record lookup succeeds or fails. -/
theorem C9_enrichment_frame (paper_get : String → Except String PaperObj)
    (rows : List Row) :
    (runEnrichment paper_get rows).1 = rows.map (enrichOne paper_get) ∧
    ∀ r : Row, (enrichOne paper_get r).id = r.id ∧
      (enrichOne paper_get r).spr = r.spr ∧
      (enrichOne paper_get r).stars = r.stars ∧
      (enrichOne paper_get r).timestamp = r.timestamp := by
  refine ⟨runEnrichment_fst paper_get rows, fun r => ?_⟩
  rw [enrichOne]
  cases get_paper_metadata paper_get r.id with
  | error e => exact ⟨rfl, rfl, rfl, rfl⟩
  | ok md => exact ⟨rfl, rfl, rfl, rfl⟩

/-- C2: when the provider fails for one row's id and succeeds for
another's, the enriched output keeps every row: the failing row appears
with all five metadata fields left as sentinels and the succeeding row
with all five populated from the response; the failure neither removes
rows nor blocks other enrichments. -/
theorem C2_failure_isolation (paper_get : String → Except String PaperObj)
    (rows : List Row) (rX rY : Row) (hX : rX ∈ rows) (hY : rY ∈ rows)
    (eX : String) (hfail : paper_get rX.id = Except.error eX)
    (mdY : PaperObj) (hok : paper_get rY.id = Except.ok mdY) :
    ((runEnrichment paper_get rows).1).length = rows.length ∧
    initEnriched rX ∈ (runEnrichment paper_get rows).1 ∧
    mergeMeta rY ⟨mdY.title, mdY.arxiv_id, mdY.url_pdf, mdY.abstract,
      mdY.published⟩ ∈ (runEnrichment paper_get rows).1 ∧
    (initEnriched rX).title = none ∧ (initEnriched rX).arxiv_id = none ∧
    (initEnriched rX).url_pdf = none ∧ (initEnriched rX).abstract = none ∧
    (initEnriched rX).published = none := by
  have hfst := runEnrichment_fst paper_get rows
  have hXe : enrichOne paper_get rX = initEnriched rX := by
    rw [enrichOne, get_paper_metadata, hfail]
  have hYe : enrichOne paper_get rY =
      mergeMeta rY ⟨mdY.title, mdY.arxiv_id, mdY.url_pdf, mdY.abstract,
        mdY.published⟩ := by
    rw [enrichOne, get_paper_metadata, hok]
  refine ⟨?_, ?_, ?_, rfl, rfl, rfl, rfl, rfl⟩
  · rw [hfst, List.length_map]
  · rw [hfst]
    exact hXe ▸ List.mem_map_of_mem _ hX
  · rw [hfst]
    exact hYe ▸ List.mem_map_of_mem _ hY

/-- C3: if some listing page in range returns a non-success status, the
run aborts with an error and the storage sink is left untouched. -/
theorem C3_fetch_failure_fatal (fetch : Nat → Except String (List Card))
    (paper_get : String → Except String PaperObj) (pages : Nat) (now : Int)
    (table : Option (List EnrichedRow))
    (h : ∃ p, 1 ≤ p ∧ p ≤ pages ∧ ∃ e, fetch p = Except.error e) :
    (∃ e, mainRun fetch paper_get pages now table = Except.error e) ∧
    finalTable fetch paper_get pages now table = table := by
  obtain ⟨p, h1, h2, e, he⟩ := h
  obtain ⟨e2, hs⟩ := scrapePages_error fetch pages 1 ⟨p, h1, by omega, e, he⟩
  have hm : mainRun fetch paper_get pages now table = Except.error e2 := by
    rw [mainRun, get_current_trending, hs]
  exact ⟨⟨e2, hm⟩, by rw [finalTable, hm]⟩

/-- C8: in the event trace of the page loop, between any two page
requests at least one 1-second sleep occurs, so consecutive requests are
separated by the politeness delay. -/
theorem C8_politeness_delay (fetch : Nat → Except String (List Card))
    (pages i j p q : Nat)
    (hi : ((scrapePages fetch 1 pages).2)[i]? = some (Event.fetchReq p))
    (hj : ((scrapePages fetch 1 pages).2)[j]? = some (Event.fetchReq q))
    (hij : i < j) :
    ∃ k, i < k ∧ k < j ∧
      ((scrapePages fetch 1 pages).2)[k]? = some (Event.sleep 1) := by
  cases scrapePages_trace_sleep fetch pages 1 i p hi with
  | inl h =>
    refine ⟨i + 1, by omega, ?_, h⟩
    rcases Nat.lt_or_ge (i + 1) j with hlt | hge
    · exact hlt
    · have hje : i + 1 = j := by omega
      rw [hje] at h
      rw [h] at hj
      simp at hj
  | inr h =>
    exfalso
    have hjlen : j < ((scrapePages fetch 1 pages).2).length :=
      (List.getElem?_eq_some_iff.mp hj).1
    have hlen2 : ((scrapePages fetch 1 pages).2).length ≤ i + 1 :=
      List.getElem?_eq_none_iff.mp h
    omega

/-- C10: when extraction yields an empty batch, the run still succeeds:
no metadata lookup is issued, zero rows are appended, and the reported
count is 0. -/
theorem C10_empty_batch (fetch : Nat → Except String (List Card))
    (paper_get : String → Except String PaperObj) (pages : Nat) (now : Int)
    (table : Option (List EnrichedRow))
    (h : get_current_trending fetch pages now = Except.ok []) :
    mainRun fetch paper_get pages now table =
      Except.ok (save_to_sqlite table [], [], 0) ∧
    (save_to_sqlite table []).length = (table.getD []).length := by
  constructor
  · rw [mainRun, h]
    rfl
  · cases table with
    | none => rfl
    | some t => simp [save_to_sqlite]

/-! ## Witnesses -/

/-- Witness for C1: a page of two well-formed cards yields exactly the two
records `abc123` and `xyz`, in order. -/
theorem C1_witness :
    List.Forall₂ wellFormedCard [cardA, cardB] ["abc123", "xyz"] ∧
    (extractPage [cardA, cardB]).length = [cardA, cardB].length ∧
    (extractPage [cardA, cardB]).map PaperSummary.id = ["abc123", "xyz"] := by
  have h : List.Forall₂ wellFormedCard [cardA, cardB] ["abc123", "xyz"] :=
    List.Forall₂.cons ⟨by decide, by decide, by decide⟩
      (List.Forall₂.cons ⟨by decide, by decide, by decide⟩ List.Forall₂.nil)
  exact ⟨h, C1_extractor_wellformed_cards _ _ h⟩

/-- Witness for C2: the provider fails for `X` and succeeds for `Y`; both
rows survive enrichment, `X` with sentinels and `Y` populated. -/
theorem C2_witness :
    rowX ∈ [rowX, rowY] ∧ rowY ∈ [rowX, rowY] ∧
    pgSplit rowX.id = Except.error "boom" ∧
    pgSplit rowY.id = Except.ok objFoo ∧
    ((runEnrichment pgSplit [rowX, rowY]).1).length = 2 ∧
    initEnriched rowX ∈ (runEnrichment pgSplit [rowX, rowY]).1 ∧
    mergeMeta rowY ⟨objFoo.title, objFoo.arxiv_id, objFoo.url_pdf,
      objFoo.abstract, objFoo.published⟩ ∈
      (runEnrichment pgSplit [rowX, rowY]).1 := by
  have h := C2_failure_isolation pgSplit [rowX, rowY] rowX rowY (by decide)
    (by decide) "boom" rfl objFoo rfl
  exact ⟨by decide, by decide, rfl, rfl, h.1, h.2.1, h.2.2.1⟩

/-- Witness for C3: page 2 of 3 fails, the run errors out and the
pre-existing table row is untouched. -/
theorem C3_witness :
    (∃ p, 1 ≤ p ∧ p ≤ 3 ∧ ∃ e, fetchFail2 p = Except.error e) ∧
    (∃ e, mainRun fetchFail2 pgNever 3 0 (some [erow0]) = Except.error e) ∧
    finalTable fetchFail2 pgNever 3 0 (some [erow0]) = some [erow0] := by
  have h : ∃ p, 1 ≤ p ∧ p ≤ 3 ∧ ∃ e, fetchFail2 p = Except.error e :=
    ⟨2, by decide, by decide, "HTTP 500", rfl⟩
  have h2 := C3_fetch_failure_fatal fetchFail2 pgNever 3 0 (some [erow0]) h
  exact ⟨h, h2.1, h2.2⟩

/-- Witness for C4: a one-page run stamps its single record with the
captured timestamp 5. -/
theorem C4_witness :
    get_current_trending fetchOkA 1 5 =
      Except.ok [⟨"abc123", some "12.3", some "450", 5⟩] ∧
    ∀ r ∈ [(⟨"abc123", some "12.3", some "450", 5⟩ : Row)],
      r.timestamp = 5 := by
  have h : get_current_trending fetchOkA 1 5 =
      Except.ok [⟨"abc123", some "12.3", some "450", 5⟩] := rfl
  exact ⟨h, (C4_single_timestamp fetchOkA 1 5 _ h).1⟩

/-- Witness for C5: of a valid card and a card with no image column, only
the valid one is emitted, with a non-empty id. -/
theorem C5_witness :
    (extractPage [cardA, cardBad]).length ≤ 2 ∧
    (⟨"abc123", some "12.3", some "450"⟩ : PaperSummary) ∈
      extractPage [cardA, cardBad] ∧
    (⟨"abc123", some "12.3", some "450"⟩ : PaperSummary).id ≠ "" ∧
    extractRecord cardBad = none ∧
    (initEnriched ⟨"abc123", some "12.3", some "450", 5⟩).id ≠ "" := by
  have h := C5_invalid_cards_dropped
  exact ⟨h.1 [cardA, cardBad], by decide, h.2.1 [cardA, cardBad] _ (by decide),
    h.2.2.1 cardBad (Or.inl (by decide)),
    h.2.2.2 fetchOkA pgNever 1 5 [⟨"abc123", some "12.3", some "450", 5⟩]
      rfl _ (by decide)⟩

/-- Witness for C8: in a two-page run the trace holds a 1-second sleep
strictly between the two page requests. -/
theorem C8_witness :
    ((scrapePages fetchEmpty 1 2).2)[0]? = some (Event.fetchReq 1) ∧
    ((scrapePages fetchEmpty 1 2).2)[2]? = some (Event.fetchReq 2) ∧
    ∃ k, 0 < k ∧ k < 2 ∧
      ((scrapePages fetchEmpty 1 2).2)[k]? = some (Event.sleep 1) := by
  exact ⟨by decide, by decide,
    C8_politeness_delay fetchEmpty 2 0 2 1 2 (by decide) (by decide)
      (by decide)⟩

/-- Witness for C10: a run whose pages parse to zero cards succeeds with
count 0, issues no lookups and leaves the table's row count unchanged. -/
theorem C10_witness :
    get_current_trending fetchEmpty 2 0 = Except.ok [] ∧
    mainRun fetchEmpty pgNever 2 0 (some [erow0]) =
      Except.ok (save_to_sqlite (some [erow0]) [], [], 0) ∧
    (save_to_sqlite (some [erow0]) []).length =
      ((some [erow0]).getD []).length := by
  have h : get_current_trending fetchEmpty 2 0 = Except.ok [] := rfl
  have h2 := C10_empty_batch fetchEmpty pgNever 2 0 (some [erow0]) h
  exact ⟨h, h2.1, h2.2⟩

end Scraper
